import Mathlib

/-!
Shallow embedding of the ev3devlight library (motors.py, fileio.py,
sensors.py).  Python numbers are modelled as rationals; Python `int(x)`
is truncation toward zero.  Device attribute files are modelled either
as explicit state records or as traces of write events, matching how
each claim observes the code.
-/

namespace Ev3devlight

/-- Python `int(x)` applied to a real number: truncation toward zero. -/
def pyTrunc (q : ℚ) : ℤ :=
  if 0 ≤ q then ⌊q⌋ else ⌈q⌉

/-! ## fileio.py

`write_int(outfile, value)` stores `str(int(value))`: the integer that
ends up in the attribute file is `pyTrunc value`.  `read_int` parses the
stored decimal text back to that integer.

`duty_int2str = [str(i) for i in range(-100, 101)]` is the precomputed
201-entry table, and `write_duty` clamps `int(value)` to [-100, 100]
and writes the looked-up string. -/

def duty_int2str : List String :=
  (List.range 201).map (fun (i : ℕ) => toString ((i : ℤ) - 100))

/-- The string that write_duty sends to the duty_cycle_sp file. -/
def write_duty_str (value : ℚ) : String :=
  let duty := max (min 100 (pyTrunc value)) (-100)
  duty_int2str.getD (duty + 100).toNat ""

/-! ## motors.py: Motor -/

/-- One write to a motor attribute file.  Each constructor names the
file written; integer files receive the truncated value, string files
the raw text. -/
inductive WriteEv where
  | speedSp (v : ℤ)
  | positionSp (v : ℤ)
  | position (v : ℤ)
  | command (s : String)
  | duty (s : String)
deriving DecidableEq, Repr

/-- The configuration a Motor carries after __init__: the gear ratio,
the setpoint tolerance, and the derived MAX_SPEED. -/
structure MotorCfg where
  gearRatio : ℚ
  tolerance : ℚ
  MAX_SPEED : ℚ
deriving DecidableEq, Repr

/-- Motor.__init__ speed-limit derivation: MAX_SPEED starts as
RATED_MOTOR_MAX_SPEED / gear_ratio and is replaced by the user maximum
only when that is strictly smaller. -/
def mkMAX_SPEED (rated : ℤ) (g : ℚ) (user : Option ℚ) : ℚ :=
  let m : ℚ := (rated : ℚ) / g
  match user with
  | none => m
  | some u => if u < m then u else m

def mkMotorCfg (rated : ℤ) (g tol : ℚ) (user : Option ℚ) : MotorCfg :=
  { gearRatio := g, tolerance := tol, MAX_SPEED := mkMAX_SPEED rated g user }

namespace Motor

/-- Motor.limit: return a given speed value within the lower/upper bound. -/
def limit (cfg : MotorCfg) (speed : ℚ) : ℚ :=
  max (min cfg.MAX_SPEED speed) (-1 * cfg.MAX_SPEED)

/-- Motor.run: writes the gear-scaled clamped speed setpoint, then the
run-forever command. -/
def run (cfg : MotorCfg) (speed : ℚ) : List WriteEv :=
  [WriteEv.speedSp (pyTrunc (limit cfg speed * cfg.gearRatio)),
   WriteEv.command "run-forever"]

/-- Motor.stop: writes the stop command. -/
def stop : List WriteEv :=
  [WriteEv.command "stop"]

/-- Motor.duty: a single write of the precomputed duty string; no
command write (activate_duty_mode is a separate call). -/
def duty (value : ℚ) : List WriteEv :=
  [WriteEv.duty (write_duty_str value)]

/-- Motor.position getter: the raw encoder integer divided by the gear
ratio. -/
def posQ (cfg : MotorCfg) (raw : ℤ) : ℚ :=
  (raw : ℚ) / cfg.gearRatio

/-- Motor.position setter: write_int of new_position * gear_ratio; the
integer stored in the position file. -/
def setPositionRaw (cfg : MotorCfg) (x : ℚ) : ℤ :=
  pyTrunc (x * cfg.gearRatio)

/-- Motor.at_target: target - tolerance <= position <= target + tolerance. -/
def at_target (cfg : MotorCfg) (raw : ℤ) (target : ℚ) : Bool :=
  decide (target - cfg.tolerance ≤ posQ cfg raw ∧
          posQ cfg raw ≤ target + cfg.tolerance)

/-- Motor.go_to, as the writes it performs given the device reads it
depends on: the running flag stands for the substring test of the word
running against the state file, and raw is the encoder integer in the
position file.  The optional busy wait at the end only re-reads state
and performs no writes, so it does not appear in the trace. -/
def go_to (cfg : MotorCfg) (running : Bool) (raw : ℤ)
    (target speed : ℚ) : List WriteEv :=
  if running = false ∧ at_target cfg raw target = false then
    [WriteEv.positionSp (pyTrunc (target * cfg.gearRatio)),
     WriteEv.speedSp (pyTrunc |limit cfg speed * cfg.gearRatio|),
     WriteEv.command "run-to-abs-pos"]
  else
    []

end Motor

/-! ## motors.py: DriveBase -/

/-- DriveBase configuration after __init__: stored maxima (defaults 100
cm/s and 360 deg/s), the turn-direction flag, and the two geometry
constants derived from wheel diameter and wheel span.  The source uses
the literal 3.1416, which is an exact decimal. -/
structure DBCfg where
  max_speed : ℚ
  max_turn_rate : ℚ
  positive_turn_is_clockwise : Bool
  wheel_factor : ℚ
  base_factor : ℚ
deriving DecidableEq, Repr

def deg_per_rad : ℚ := 180 / (31416 / 10000)

def mkDriveBase (wheel_diameter wheel_span : ℚ) (ptc : Bool)
    (ms mtr : Option ℚ) : DBCfg :=
  { max_speed := match ms with | none => 100 | some v => v
    max_turn_rate := match mtr with | none => 360 | some v => v
    positive_turn_is_clockwise := ptc
    wheel_factor := (wheel_diameter / 2) / deg_per_rad
    base_factor := (wheel_span / 2) / deg_per_rad }

namespace DriveBase

/-- The clamp applied to the forward speed inside drive_and_turn. -/
def limitSpeed (cfg : DBCfg) (s : ℚ) : ℚ :=
  max (min s cfg.max_speed) (-cfg.max_speed)

/-- The clamp applied to the turn rate inside drive_and_turn. -/
def limitRate (cfg : DBCfg) (t : ℚ) : ℚ :=
  max (min t cfg.max_turn_rate) (-cfg.max_turn_rate)

/-- DriveBase.drive_and_turn: the (left_speed, right_speed) pair handed
to the two motors. -/
def drive_and_turn (cfg : DBCfg) (speed_cm_sec turnrate_deg_sec : ℚ) :
    ℚ × ℚ :=
  let nett_speed := limitSpeed cfg speed_cm_sec / cfg.wheel_factor
  let difference :=
    limitRate cfg turnrate_deg_sec * cfg.base_factor / cfg.wheel_factor
  if cfg.positive_turn_is_clockwise then
    (nett_speed + difference, nett_speed - difference)
  else
    (nett_speed - difference, nett_speed + difference)

end DriveBase

/-! ## motors.py: Mechanism -/

/-- Python max() over a nonempty list of values (the empty case is
unreachable here because the reset key is present). -/
def listMax : List ℚ → ℚ
  | [] => 0
  | x :: xs => xs.foldl max x

def listMin : List ℚ → ℚ
  | [] => 0
  | x :: xs => xs.foldl min x

/-- What Mechanism.__init__ stores when the assertion passes. -/
structure MechCfg where
  reset_forward : Bool
  resetTarget : ℚ
  default_speed : ℚ
deriving DecidableEq, Repr

namespace Mechanism

/-- Mechanism.__init__: a missing reset key is a KeyError and a reset
value that is neither the max nor the min of the values fails the
assertion; both are construction failures (none). -/
def init (targets : List (String × ℚ)) (default_speed : ℚ) :
    Option MechCfg :=
  match targets.lookup "reset" with
  | none => none
  | some r =>
    if r = listMax (targets.map Prod.snd) ∨
        r = listMin (targets.map Prod.snd) then
      some { reset_forward := decide (r = listMax (targets.map Prod.snd))
             resetTarget := r
             default_speed := default_speed }
    else
      none

/-- Mechanism.reset: run toward the reset end, wait for the stop
condition (the wait only reads the touch sensor or the motor state and
performs no writes), stop, then overwrite the encoder position with the
reset target.  The trace lists the attribute writes in order. -/
def reset (mech : MechCfg) (cfg : MotorCfg) : List WriteEv :=
  (if mech.reset_forward then Motor.run cfg mech.default_speed
   else Motor.run cfg (-mech.default_speed))
  ++ Motor.stop
  ++ [WriteEv.position (Motor.setPositionRaw cfg mech.resetTarget)]

end Mechanism

/-! ## sensors.py: Sensor.mode -/

/-- The observable state of the mode attribute file: its current
content and how many writes have been issued to it. -/
structure SensorDev where
  mode : String
  modeWrites : ℕ
deriving DecidableEq, Repr

namespace Sensor

/-- The Sensor.mode setter: re-reads the current mode and writes only
when the new value differs. -/
def setMode (d : SensorDev) (m : String) : SensorDev :=
  if d.mode ≠ m then { mode := m, modeWrites := d.modeWrites + 1 } else d

end Sensor

/-! ## Helper lemmas -/

theorem pyTrunc_intCast (n : ℤ) : pyTrunc (n : ℚ) = n := by
  unfold pyTrunc
  split <;> simp

theorem abs_pyTrunc_le (q : ℚ) : |((pyTrunc q : ℤ) : ℚ)| ≤ |q| := by
  unfold pyTrunc
  split
  · rename_i h
    rw [abs_of_nonneg h, abs_of_nonneg]
    · exact_mod_cast Int.floor_le q
    · exact_mod_cast Int.floor_nonneg.mpr h
  · rename_i h
    push_neg at h
    rw [abs_of_nonpos (le_of_lt h), abs_of_nonpos]
    · simp only [neg_le_neg_iff]
      exact_mod_cast Int.le_ceil q
    · have hc : ⌈q⌉ ≤ (0 : ℤ) := Int.ceil_le.mpr (by exact_mod_cast le_of_lt h)
      exact_mod_cast hc

theorem duty_int2str_length : duty_int2str.length = 201 := by
  rw [duty_int2str, List.length_map, List.length_range]

theorem duty_int2str_lookup (c : ℤ) (h1 : -100 ≤ c) (h2 : c ≤ 100) :
    duty_int2str.getD (c + 100).toNat "" = toString c := by
  have hlt : (c + 100).toNat < duty_int2str.length := by
    rw [duty_int2str_length]
    omega
  rw [List.getD_eq_getElem _ _ hlt]
  simp only [duty_int2str, List.getElem_map, List.getElem_range]
  congr 1
  omega

theorem write_duty_str_eq (value : ℚ) :
    write_duty_str value = toString (max (min 100 (pyTrunc value)) (-100)) := by
  unfold write_duty_str
  exact duty_int2str_lookup _ (le_max_right _ _) (by
    refine max_le ?_ (by norm_num)
    exact le_trans (min_le_left _ _) (by norm_num))

theorem clamp_lb (M x : ℚ) : -M ≤ max (min x M) (-M) :=
  le_max_right _ _

theorem clamp_ub (M x : ℚ) (h : 0 ≤ M) : max (min x M) (-M) ≤ M :=
  max_le (min_le_right _ _) (neg_nonpos_of_nonneg h |>.trans h)

theorem clamp_idem (M x : ℚ) (h : 0 ≤ M) :
    max (min (max (min x M) (-M)) M) (-M) = max (min x M) (-M) := by
  rw [min_eq_left (clamp_ub M x h), max_eq_left (clamp_lb M x)]

/-! ## Claim theorems -/

/-- Claim C6: at_target(target) returns true iff
|position - target| <= tolerance, with both boundary positions
inclusive (the comparison chain uses non-strict inequalities). -/
theorem at_target_iff_abs_le (cfg : MotorCfg) (raw : ℤ) (target : ℚ) :
    Motor.at_target cfg raw target = true ↔
      |Motor.posQ cfg raw - target| ≤ cfg.tolerance := by
  simp only [Motor.at_target, decide_eq_true_eq, abs_le]
  constructor
  · rintro ⟨h1, h2⟩
    exact ⟨by linarith, by linarith⟩
  · rintro ⟨h1, h2⟩
    exact ⟨by linarith, by linarith⟩

/-- Claim C9: duty(value) performs exactly one write: the decimal
string of value truncated to an integer and clamped to [-100, 100],
looked up in the 201-entry table; it writes no command. -/
theorem duty_writes_clamped_string (value : ℚ) :
    Motor.duty value =
      [WriteEv.duty (toString (max (min 100 (pyTrunc value)) (-100)))] ∧
    duty_int2str.length = 201 ∧
    ∀ s, WriteEv.command s ∉ Motor.duty value := by
  refine ⟨?_, duty_int2str_length, ?_⟩
  · rw [Motor.duty, write_duty_str_eq]
  · intro s
    simp [Motor.duty]

/-- Claim C5: go_to performs no writes at all when the motor state
contains running, or when the current position is already within
tolerance of the target. -/
theorem go_to_noop_when_running_or_at_target (cfg : MotorCfg)
    (running : Bool) (raw : ℤ) (target speed : ℚ)
    (h : running = true ∨ Motor.at_target cfg raw target = true) :
    Motor.go_to cfg running raw target speed = [] := by
  unfold Motor.go_to
  rcases h with h | h <;> simp [h]

/-- Witness for C5 at a concrete input: the motor is running, so the
second go_to call writes nothing. -/
theorem go_to_noop_witness :
    Motor.go_to (mkMotorCfg 1000 1 5 none) true 0 100 50 = [] :=
  go_to_noop_when_running_or_at_target (mkMotorCfg 1000 1 5 none)
    true 0 100 50 (Or.inl rfl)

/-- Counterexample to claim C7 as stated: when the mode file already
holds the requested value, setting it twice results in zero underlying
writes, not exactly one. -/
theorem setMode_twice_not_always_one_write :
    ¬ ((Sensor.setMode (Sensor.setMode ⟨"IR-PROX", 0⟩ "IR-PROX")
          "IR-PROX").modeWrites = 0 + 1) := by
  decide

/-- Claim C7 amended: setting the mode twice in succession to the same
value results in exactly one underlying write when the value differs
from the current mode, and zero writes when it already equals it; the
second set is always suppressed because the first read-back equals the
new value. -/
theorem setMode_twice_write_count (d : SensorDev) (m : String) :
    (Sensor.setMode (Sensor.setMode d m) m).modeWrites =
      d.modeWrites + (if d.mode = m then 0 else 1) := by
  unfold Sensor.setMode
  by_cases h : d.mode = m <;> simp [h]

/-- Counterexample to claim C3 as stated: with gear ratio 1 and
mechanism position 1/2, write_int truncates 0.5 to 0, so reading the
echoed integer back yields 0, not 1/2. -/
theorem position_roundtrip_counterexample :
    ¬ (Motor.posQ ⟨1, 5, 1000⟩
        (Motor.setPositionRaw ⟨1, 5, 1000⟩ (1 / 2)) = 1 / 2) := by
  norm_num [Motor.posQ, Motor.setPositionRaw, pyTrunc]

/-- Claim C3 amended: the position setter/getter round-trips exactly
against the echoing device whenever the gear-scaled value
x * gear_ratio is an integer; write_int applies int(), which truncates,
so fractionally scaled positions lose their fractional part. -/
theorem position_roundtrip (cfg : MotorCfg) (x : ℚ) (n : ℤ)
    (hg : 0 < cfg.gearRatio) (hx : x * cfg.gearRatio = (n : ℚ)) :
    Motor.posQ cfg (Motor.setPositionRaw cfg x) = x := by
  unfold Motor.posQ Motor.setPositionRaw
  rw [hx, pyTrunc_intCast, div_eq_iff (ne_of_gt hg)]
  exact hx.symm

/-- Witness for the amended C3: gear ratio 2, position 3 round-trips. -/
theorem position_roundtrip_witness :
    Motor.posQ ⟨2, 5, 1000⟩
      (Motor.setPositionRaw ⟨2, 5, 1000⟩ 3) = 3 :=
  position_roundtrip ⟨2, 5, 1000⟩ 3 6
    ((by norm_num : (0 : ℚ) < 2))
    ((by norm_num : (3 : ℚ) * 2 = ((6 : ℤ) : ℚ)))

/-- Claim C1: MAX_SPEED is min(rated/g, user_max) when a user maximum
is supplied (rated/g otherwise), run clamps the speed to
[-MAX_SPEED, MAX_SPEED] before gear scaling, and the transmitted speed
setpoint magnitude never exceeds MAX_SPEED * g. -/
theorem run_clamp (rated : ℤ) (g u tol speed : ℚ)
    (hg : 0 < g) (hr : (0 : ℚ) ≤ (rated : ℚ)) (hu : 0 ≤ u) :
    mkMAX_SPEED rated g (some u) = min ((rated : ℚ) / g) u ∧
    mkMAX_SPEED rated g none = (rated : ℚ) / g ∧
    -(mkMotorCfg rated g tol (some u)).MAX_SPEED ≤
        Motor.limit (mkMotorCfg rated g tol (some u)) speed ∧
    Motor.limit (mkMotorCfg rated g tol (some u)) speed ≤
        (mkMotorCfg rated g tol (some u)).MAX_SPEED ∧
    Motor.run (mkMotorCfg rated g tol (some u)) speed =
      [WriteEv.speedSp (pyTrunc
          (Motor.limit (mkMotorCfg rated g tol (some u)) speed * g)),
       WriteEv.command "run-forever"] ∧
    |((pyTrunc
        (Motor.limit (mkMotorCfg rated g tol (some u)) speed * g) : ℤ) : ℚ)| ≤
      (mkMotorCfg rated g tol (some u)).MAX_SPEED * g := by
  have hmin : mkMAX_SPEED rated g (some u) = min ((rated : ℚ) / g) u := by
    show (if u < (rated : ℚ) / g then u else (rated : ℚ) / g) =
      min ((rated : ℚ) / g) u
    rcases lt_or_le u ((rated : ℚ) / g) with h | h
    · rw [if_pos h, min_eq_right h.le]
    · rw [if_neg (not_lt.mpr h), min_eq_left h]
  have hM0 : 0 ≤ (mkMotorCfg rated g tol (some u)).MAX_SPEED := by
    show 0 ≤ mkMAX_SPEED rated g (some u)
    rw [hmin]
    exact le_min (div_nonneg hr hg.le) hu
  have hlb : -(mkMotorCfg rated g tol (some u)).MAX_SPEED ≤
      Motor.limit (mkMotorCfg rated g tol (some u)) speed := by
    rw [Motor.limit, neg_one_mul]
    exact le_max_right _ _
  have hub : Motor.limit (mkMotorCfg rated g tol (some u)) speed ≤
      (mkMotorCfg rated g tol (some u)).MAX_SPEED := by
    rw [Motor.limit, neg_one_mul]
    exact max_le (min_le_left _ _) (neg_le_self hM0)
  refine ⟨hmin, rfl, hlb, hub, rfl, ?_⟩
  calc |((pyTrunc
        (Motor.limit (mkMotorCfg rated g tol (some u)) speed * g) : ℤ) : ℚ)|
      ≤ |Motor.limit (mkMotorCfg rated g tol (some u)) speed * g| :=
        abs_pyTrunc_le _
    _ = |Motor.limit (mkMotorCfg rated g tol (some u)) speed| * g := by
        rw [abs_mul, abs_of_pos hg]
    _ ≤ (mkMotorCfg rated g tol (some u)).MAX_SPEED * g :=
        mul_le_mul_of_nonneg_right (abs_le.mpr ⟨hlb, hub⟩) hg.le

/-- Witness for C1 at rated 1000, gear ratio 2, user maximum 300 and a
huge requested speed. -/
theorem run_clamp_witness :
    mkMAX_SPEED 1000 2 (some 300) = min (((1000 : ℤ) : ℚ) / 2) 300 ∧
    mkMAX_SPEED 1000 2 none = ((1000 : ℤ) : ℚ) / 2 ∧
    -(mkMotorCfg 1000 2 5 (some 300)).MAX_SPEED ≤
        Motor.limit (mkMotorCfg 1000 2 5 (some 300)) 10000 ∧
    Motor.limit (mkMotorCfg 1000 2 5 (some 300)) 10000 ≤
        (mkMotorCfg 1000 2 5 (some 300)).MAX_SPEED ∧
    Motor.run (mkMotorCfg 1000 2 5 (some 300)) 10000 =
      [WriteEv.speedSp (pyTrunc
          (Motor.limit (mkMotorCfg 1000 2 5 (some 300)) 10000 * 2)),
       WriteEv.command "run-forever"] ∧
    |((pyTrunc
        (Motor.limit (mkMotorCfg 1000 2 5 (some 300)) 10000 * 2) : ℤ) : ℚ)| ≤
      (mkMotorCfg 1000 2 5 (some 300)).MAX_SPEED * 2 :=
  run_clamp 1000 2 300 5 10000 (by norm_num) (by norm_num) (by norm_num)

/-- Claim C2: drive_and_turn clamps speed and turnrate independently to
the configured maxima, computes nett and diff from the geometry
factors, and commands left = nett + diff, right = nett - diff when
positive_turn_is_clockwise (signs swapped otherwise); with
wheel_diameter 5, wheel_span 10 and a clockwise-positive base,
drive_and_turn 0 90 yields opposite wheel speeds with the left one
positive. -/
theorem drive_and_turn_formula (wd ws ms mt speed turnrate : ℚ) :
    (∀ ptc : Bool,
      DriveBase.drive_and_turn (mkDriveBase wd ws ptc (some ms) (some mt))
          speed turnrate =
        (let nett := max (min speed ms) (-ms) / ((wd / 2) / deg_per_rad)
         let diff := max (min turnrate mt) (-mt) * ((ws / 2) / deg_per_rad) /
             ((wd / 2) / deg_per_rad)
         if ptc then (nett + diff, nett - diff)
         else (nett - diff, nett + diff))) ∧
    (DriveBase.drive_and_turn (mkDriveBase 5 10 true none none) 0 90).1 =
      -(DriveBase.drive_and_turn (mkDriveBase 5 10 true none none) 0 90).2 ∧
    0 < (DriveBase.drive_and_turn (mkDriveBase 5 10 true none none) 0 90).1 := by
  refine ⟨fun ptc => rfl, ?_, ?_⟩ <;>
    norm_num [DriveBase.drive_and_turn, DriveBase.limitSpeed,
      DriveBase.limitRate, mkDriveBase, deg_per_rad, min_def, max_def]

/-- Claim C10: a DriveBase built without max_speed or max_turn_rate
defaults to 100 cm/s and 360 deg/s; drive_and_turn clamps every input
to those bounds, and the clamped command fully determines the output. -/
theorem drive_base_default_limits (wd ws : ℚ) (ptc : Bool) (s t : ℚ) :
    (mkDriveBase wd ws ptc none none).max_speed = 100 ∧
    (mkDriveBase wd ws ptc none none).max_turn_rate = 360 ∧
    -100 ≤ DriveBase.limitSpeed (mkDriveBase wd ws ptc none none) s ∧
    DriveBase.limitSpeed (mkDriveBase wd ws ptc none none) s ≤ 100 ∧
    -360 ≤ DriveBase.limitRate (mkDriveBase wd ws ptc none none) t ∧
    DriveBase.limitRate (mkDriveBase wd ws ptc none none) t ≤ 360 ∧
    DriveBase.drive_and_turn (mkDriveBase wd ws ptc none none) s t =
      DriveBase.drive_and_turn (mkDriveBase wd ws ptc none none)
        (DriveBase.limitSpeed (mkDriveBase wd ws ptc none none) s)
        (DriveBase.limitRate (mkDriveBase wd ws ptc none none) t) := by
  have h1 : DriveBase.limitSpeed (mkDriveBase wd ws ptc none none)
      (DriveBase.limitSpeed (mkDriveBase wd ws ptc none none) s) =
      DriveBase.limitSpeed (mkDriveBase wd ws ptc none none) s :=
    clamp_idem 100 s (by norm_num)
  have h2 : DriveBase.limitRate (mkDriveBase wd ws ptc none none)
      (DriveBase.limitRate (mkDriveBase wd ws ptc none none) t) =
      DriveBase.limitRate (mkDriveBase wd ws ptc none none) t :=
    clamp_idem 360 t (by norm_num)
  refine ⟨rfl, rfl, clamp_lb 100 s, clamp_ub 100 s (by norm_num),
    clamp_lb 360 t, clamp_ub 360 t (by norm_num), ?_⟩
  simp only [DriveBase.drive_and_turn, h1, h2]

/-- Claim C4: Mechanism construction succeeds only when the targets
contain a reset entry equal to the maximum or the minimum of all
target values; the map a:10, b:20, reset:15 fails construction, while
low:0, mid:50, reset:100 succeeds with homing toward the maximum. -/
theorem mechanism_reset_target_invariant :
    (∀ (targets : List (String × ℚ)) (ds : ℚ) (m : MechCfg),
      Mechanism.init targets ds = some m →
      targets.lookup "reset" = some m.resetTarget ∧
      (m.resetTarget = listMax (targets.map Prod.snd) ∨
       m.resetTarget = listMin (targets.map Prod.snd))) ∧
    Mechanism.init [("a", 10), ("b", 20), ("reset", 15)] 30 = none ∧
    Mechanism.init [("low", 0), ("mid", 50), ("reset", 100)] 30 =
      some { reset_forward := true, resetTarget := 100, default_speed := 30 } := by
  refine ⟨?_, by decide, by decide⟩
  intro targets ds m h
  unfold Mechanism.init at h
  split at h
  · exact absurd h (by simp)
  · rename_i r hl
    split at h
    · rename_i hc
      injection h with h
      subst h
      exact ⟨hl, hc⟩
    · exact absurd h (by simp)

/-- Witness for C4: the general direction of the theorem applied to the
succeeding example map. -/
theorem mechanism_reset_target_witness :
    List.lookup "reset" [("low", (0 : ℚ)), ("mid", 50), ("reset", 100)] =
      some (100 : ℚ) ∧
    ((100 : ℚ) =
        listMax ([("low", (0 : ℚ)), ("mid", 50), ("reset", 100)].map Prod.snd) ∨
     (100 : ℚ) =
        listMin ([("low", (0 : ℚ)), ("mid", 50), ("reset", 100)].map Prod.snd)) :=
  mechanism_reset_target_invariant.1
    [("low", (0 : ℚ)), ("mid", 50), ("reset", 100)] 30
    { reset_forward := true, resetTarget := 100, default_speed := 30 }
    (by decide)

/-- Counterexample to claim C8 as stated: with the single-entry target
map reset:5 the reset target equals the minimum of all target values,
yet reset() runs the motor at +default_speed, because the value is also
the maximum and the construction-time direction test checks the
maximum first. -/
theorem mechanism_reset_min_counterexample :
    Mechanism.init [("reset", (5 : ℚ))] 1 =
      some { reset_forward := true, resetTarget := 5, default_speed := 1 } ∧
    (5 : ℚ) = listMin ([("reset", (5 : ℚ))].map Prod.snd) ∧
    (0 : ℚ) < 1 ∧
    Mechanism.reset { reset_forward := true, resetTarget := 5, default_speed := 1 }
        ⟨1, 5, 1000⟩ ≠
      Motor.run ⟨1, 5, 1000⟩ (-1) ++ Motor.stop ++
        [WriteEv.position (Motor.setPositionRaw ⟨1, 5, 1000⟩ 5)] := by
  have hL : Mechanism.reset
      { reset_forward := true, resetTarget := 5, default_speed := 1 }
      (⟨1, 5, 1000⟩ : MotorCfg) =
      [WriteEv.speedSp 1, WriteEv.command "run-forever",
       WriteEv.command "stop", WriteEv.position 5] := by
    norm_num [Mechanism.reset, Motor.run, Motor.stop, Motor.setPositionRaw,
      Motor.limit, pyTrunc, min_def, max_def]
  have hR : Motor.run (⟨1, 5, 1000⟩ : MotorCfg) (-1) ++ Motor.stop ++
      [WriteEv.position (Motor.setPositionRaw (⟨1, 5, 1000⟩ : MotorCfg) 5)] =
      [WriteEv.speedSp (-1), WriteEv.command "run-forever",
       WriteEv.command "stop", WriteEv.position 5] := by
    norm_num [Motor.run, Motor.stop, Motor.setPositionRaw, Motor.limit,
      pyTrunc, min_def, max_def, Int.ceil_neg]
  refine ⟨by decide, by norm_num [listMin], by norm_num, ?_⟩
  rw [hL, hR]
  decide

/-- Claim C8 amended: reset() runs the motor at +default_speed exactly
when the reset target equals the maximum of all target values, and at
-default_speed otherwise (in particular when it is the minimum but not
also the maximum); it then stops the motor and overwrites the encoder
position with the gear-scaled reset target, the only forcible absolute
position write. -/
theorem mechanism_reset_trace (targets : List (String × ℚ)) (ds : ℚ)
    (m : MechCfg) (cfg : MotorCfg)
    (hinit : Mechanism.init targets ds = some m) (hds : 0 < ds) :
    (m.reset_forward = true ↔
      m.resetTarget = listMax (targets.map Prod.snd)) ∧
    m.default_speed = ds ∧
    Mechanism.reset m cfg =
      Motor.run cfg (if m.reset_forward then ds else -ds) ++ Motor.stop ++
        [WriteEv.position (Motor.setPositionRaw cfg m.resetTarget)] := by
  unfold Mechanism.init at hinit
  split at hinit
  · exact absurd hinit (by simp)
  · rename_i r hl
    split at hinit
    · rename_i hc
      injection hinit with hinit
      subst hinit
      refine ⟨by simp, rfl, ?_⟩
      unfold Mechanism.reset
      by_cases hb : r = listMax (targets.map Prod.snd) <;> simp [hb]
    · exact absurd hinit (by simp)

/-- Witness for the amended C8 on the single-entry target map. -/
theorem mechanism_reset_trace_witness :
    (true = true ↔ (5 : ℚ) = listMax ([("reset", (5 : ℚ))].map Prod.snd)) ∧
    (1 : ℚ) = 1 ∧
    Mechanism.reset { reset_forward := true, resetTarget := 5, default_speed := 1 }
        (mkMotorCfg 1000 1 5 none) =
      Motor.run (mkMotorCfg 1000 1 5 none) (if true then 1 else -1) ++
        Motor.stop ++
        [WriteEv.position (Motor.setPositionRaw (mkMotorCfg 1000 1 5 none) 5)] :=
  mechanism_reset_trace [("reset", (5 : ℚ))] 1
    { reset_forward := true, resetTarget := 5, default_speed := 1 }
    (mkMotorCfg 1000 1 5 none) (by decide) (by norm_num)

end Ev3devlight
